import Mathlib

/-!
A shallow embedding of the characteristic value engine of `aiohomekit`
(`src/aiohomekit/model/characteristics/characteristic.py`).

Python numbers are modelled exactly: `int` as `ℤ` and `float` / `decimal.Decimal`
as the exact decimal type `Dec` below (an integer mantissa times a power of ten).
Every finite binary float is an exact decimal, so this represents all values the
repository manipulates; binary-float rounding noise of the host `float` type is
idealised away (values are carried exactly), and non-finite floats (inf/NaN) are
out of scope and flagged explicitly where they could arise.
-/

/-- One exact decimal number `mant * 10 ^ exp`.  Operations keep results in the
canonical form produced by `Dec.norm` (no trailing zero digits in `mant`,
and `0` is represented as `⟨0, 0⟩`), so value equality on the results of the
operations below coincides with structural equality. -/
structure Dec where
  mant : ℤ
  exp : ℤ
deriving DecidableEq, Repr

/-- Number of decimal digits of a natural number (`0` has `0` digits);
first argument is fuel. -/
def digitsFuel : ℕ → ℕ → ℕ
  | 0, _ => 0
  | f + 1, n => if n = 0 then 0 else digitsFuel f (n / 10) + 1

def digitsOf (n : ℕ) : ℕ := digitsFuel n n

/-- Strip trailing zero digits from a mantissa/exponent pair; fuel-driven. -/
def stripTZ : ℕ → ℤ → ℤ → Dec
  | 0, m, e => ⟨m, e⟩
  | f + 1, m, e =>
    if m = 0 then ⟨0, 0⟩
    else if m % 10 = 0 then stripTZ f (m / 10) (e + 1)
    else ⟨m, e⟩

def Dec.norm (d : Dec) : Dec := stripTZ d.mant.natAbs d.mant d.exp

def Dec.ofInt (n : ℤ) : Dec := Dec.norm ⟨n, 0⟩

/-- Rescale both operands to the smaller exponent, so mantissas are comparable. -/
def Dec.align (a b : Dec) : ℤ × ℤ × ℤ :=
  let e := min a.exp b.exp
  (a.mant * 10 ^ (a.exp - e).toNat, b.mant * 10 ^ (b.exp - e).toNat, e)

def Dec.add (a b : Dec) : Dec :=
  let (x, y, e) := Dec.align a b
  Dec.norm ⟨x + y, e⟩

def Dec.sub (a b : Dec) : Dec :=
  let (x, y, e) := Dec.align a b
  Dec.norm ⟨x - y, e⟩

def Dec.mul (a b : Dec) : Dec := Dec.norm ⟨a.mant * b.mant, a.exp + b.exp⟩

/-- Value-level strict order. -/
def Dec.blt (a b : Dec) : Bool :=
  let (x, y, _) := Dec.align a b
  x < y

def Dec.ble (a b : Dec) : Bool :=
  let (x, y, _) := Dec.align a b
  x ≤ y

/-- Value-level equality (used where canonical form is not guaranteed). -/
def Dec.beqv (a b : Dec) : Bool :=
  let (x, y, _) := Dec.align a b
  x = y

/-- Round a nonnegative integer quotient `n / 10 ^ t` half-up (ties away
from zero on the absolute value). -/
def roundHalfUpAt (n : ℕ) (t : ℕ) : ℕ :=
  let q := n / 10 ^ t
  let r := n % 10 ^ t
  if 10 ^ t ≤ 2 * r then q + 1 else q

/-- Round a nonnegative integer quotient `n / 10 ^ t` half-even. -/
def roundHalfEvenAt (n : ℕ) (t : ℕ) : ℕ :=
  let q := n / 10 ^ t
  let r := n % 10 ^ t
  if 10 ^ t < 2 * r then q + 1
  else if 2 * r < 10 ^ t then q
  else if q % 2 = 0 then q else q + 1

/-- Round a decimal to `p` significant digits with `ROUND_HALF_UP`
(ties away from zero), as a `decimal` context with `prec = p` does after
every arithmetic operation.  Exactly representable values are untouched. -/
def Dec.roundSig (p : ℕ) (d : Dec) : Dec :=
  let n := d.mant.natAbs
  let dg := digitsOf n
  if dg ≤ p then d.norm
  else
    let t := dg - p
    let q := roundHalfUpAt n t
    Dec.norm ⟨(if d.mant < 0 then -(q : ℤ) else (q : ℤ)), d.exp + t⟩

/-- Exact quotient `a / b` rounded to 6 significant digits with
`ROUND_HALF_UP`, as `decimal` division performs under a context with
`prec = 6` and `rounding = ROUND_HALF_UP`.  `b` must be nonzero.
The scale guard makes the integer quotient carry at least 7 significant
digits, and with half-up rounding the discarded exact remainder can never
flip a rounding decision, so rounding that quotient is exact rounding. -/
def Dec.divRound6 (a b : Dec) : Dec :=
  if a.mant = 0 then ⟨0, 0⟩
  else
    let na := a.mant.natAbs
    let nb := b.mant.natAbs
    let s := digitsOf nb + 7
    let q0 := na * 10 ^ s / nb
    let dg := digitsOf q0
    let t := dg - 6
    let q := roundHalfUpAt q0 t
    let neg := (decide (a.mant < 0)) ≠ (decide (b.mant < 0))
    Dec.norm ⟨(if neg then -(q : ℤ) else (q : ℤ)), a.exp - b.exp - s + t⟩

/-- `Decimal.to_integral_value` under `ROUND_HALF_UP` (ties away from zero). -/
def Dec.intHU (d : Dec) : ℤ :=
  if 0 ≤ d.exp then d.mant * 10 ^ d.exp.toNat
  else
    let t := (-d.exp).toNat
    let q := roundHalfUpAt d.mant.natAbs t
    if d.mant < 0 then -(q : ℤ) else (q : ℤ)

/-- `Decimal.to_integral_value` under the default context rounding
`ROUND_HALF_EVEN`. -/
def Dec.intHE (d : Dec) : ℤ :=
  if 0 ≤ d.exp then d.mant * 10 ^ d.exp.toNat
  else
    let t := (-d.exp).toNat
    let q := roundHalfEvenAt d.mant.natAbs t
    if d.mant < 0 then -(q : ℤ) else (q : ℤ)

/-- Truncation toward zero, Python `int(...)` on a number. -/
def Dec.trunc (d : Dec) : ℤ :=
  if 0 ≤ d.exp then d.mant * 10 ^ d.exp.toNat
  else
    let t := (-d.exp).toNat
    let q := d.mant.natAbs / 10 ^ t
    if d.mant < 0 then -(q : ℤ) else (q : ℤ)

/-- Whether `a / b` is an exact integer (`b` nonzero), i.e. whether the exact
`Decimal` remainder `a % b` is zero. -/
def Dec.divisibleBy (a b : Dec) : Bool :=
  let d := a.exp - b.exp
  if 0 ≤ d then a.mant * 10 ^ d.toNat % b.mant = 0
  else a.mant % (b.mant * 10 ^ (-d).toNat) = 0

/-! ## Protocol enums and the Python value domain -/

/-- `CharacteristicFormats` (from `characteristic_formats.py`): the closed set
of format tags used by `characteristic.py`. -/
inductive CharacteristicFormats
  | bool | uint8 | uint16 | uint32 | uint64 | int | float
  | string | data | tlv8 | array | dict
deriving DecidableEq, Repr

/-- `CharacteristicPermissions` (from `permissions.py`). -/
inductive CharacteristicPermissions
  | paired_read | paired_write | events | additional_authorization
  | timed_write | hidden
deriving DecidableEq, Repr

/-- `HapStatusCodes` constants referenced by `characteristic.py`
(collaborator from `aiohomekit.protocol.statuscodes`, outside `src/`):
only their identities matter here, values are the standard HAP codes. -/
def HapStatusCodes.INVALID_VALUE : ℤ := -70410
def HapStatusCodes.OUT_OF_RESOURCES : ℤ := -70407
def HapStatusCodes.CANT_WRITE_READ_ONLY : ℤ := -70404
def HapStatusCodes.CANT_READ_WRITE_ONLY : ℤ := -70405

/-- A Python runtime value as used by `characteristic.py`.  `float` carries the
exact decimal value of the (idealised) host float.  The repository only ever
constructs the empty list and the empty mapping (the `DEFAULT_FOR_TYPE`
entries), so those containers are carried as atoms. -/
inductive PyVal
  | none
  | bool (b : Bool)
  | int (n : ℤ)
  | float (d : Dec)
  | str (s : String)
  | bytes (bs : List ℕ)
  | arrEmpty
  | dictEmpty
deriving DecidableEq, Repr

/-- The exception classes that the modelled code can raise.  `formatError` is
`aiohomekit.exceptions.FormatError` (carrying either a `HapStatusCodes` value
or a message) and `permissionError` is `CharacteristicPermissionError`; the
rest are Python builtins (or `decimal` module exceptions) that the code under
`src/` does not catch.  `nonfiniteFloat` marks the model boundary: an IEEE-754
non-finite payload, excluded from the float-as-exact-decimal idealisation. -/
inductive PyExn
  | permissionError (code : ℤ)
  | formatError (code : ℤ)
  | formatErrorMsg (msg : String)
  | valueError
  | typeError
  | invalidOperation
  | structError
  | overflowError
  | unicodeDecodeError
  | attributeError
  | nonfiniteFloat
deriving DecidableEq, Repr

instance {E A : Type} [DecidableEq E] [DecidableEq A] : DecidableEq (Except E A) := fun a b =>
  match a, b with
  | .ok x, .ok y =>
    if h : x = y then .isTrue (by rw [h]) else .isFalse (by intro hc; cases hc; exact h rfl)
  | .error x, .error y =>
    if h : x = y then .isTrue (by rw [h]) else .isFalse (by intro hc; cases hc; exact h rfl)
  | .ok _, .error _ => .isFalse (by intro hc; cases hc)
  | .error _, .ok _ => .isFalse (by intro hc; cases hc)

/-! ## Conversions between Python values and numbers -/

/-- The numeric value of a Python object for arithmetic/comparison purposes
(`bool` is an `int` subclass); `Option.none` where Python would raise
`TypeError` on a numeric comparison or `decimal` conversion. -/
def toDec : PyVal → Option Dec
  | .bool b => some (Dec.ofInt (if b then 1 else 0))
  | .int n => some (Dec.ofInt n)
  | .float d => some d.norm
  | _ => Option.none

/-- Python truthiness of the values above. -/
def pyTruthy : PyVal → Bool
  | .none => false
  | .bool b => b
  | .int n => n ≠ 0
  | .float d => d.mant ≠ 0
  | .str s => s ≠ ""
  | .bytes bs => bs ≠ []
  | .arrEmpty => false
  | .dictEmpty => false

/-- Python `str(...)` of the values above.  Exact for the values the claims
exercise (`None`, booleans, integers, strings); the float rendering is a
placeholder using scientific mantissa/exponent notation, which is never an
accepted `strtobool` token, matching the class of the outcome in Python. -/
def pyStr : PyVal → String
  | .none => "None"
  | .bool b => if b then "True" else "False"
  | .int n => toString n
  | .float d => toString d.mant ++ "E" ++ toString d.exp
  | .str s => s
  | .bytes _ => "bytes-repr"
  | .arrEmpty => "[]"
  | .dictEmpty => "\x7b\x7d"

def lowerChar (c : Char) : Char :=
  if 'A' ≤ c ∧ c ≤ 'Z' then Char.ofNat (c.toNat + 32) else c

def lowerStr (s : String) : String := ⟨s.data.map lowerChar⟩

/-- `distutils.util.strtobool`: truthy/falsy word table, `ValueError` otherwise. -/
def strtobool (s : String) : Except PyExn ℤ :=
  let l := lowerStr s
  if l = "y" ∨ l = "yes" ∨ l = "t" ∨ l = "true" ∨ l = "on" ∨ l = "1" then .ok 1
  else if l = "n" ∨ l = "no" ∨ l = "f" ∨ l = "false" ∨ l = "off" ∨ l = "0" then .ok 0
  else .error .valueError

def isWs (c : Char) : Bool := c = ' ' ∨ c = '\t' ∨ c = '\n' ∨ c = '\r'

def digitsVal (ds : List Char) : ℕ := ds.foldl (fun a c => a * 10 + (c.toNat - 48)) 0

/-- Parse a decimal literal `[sign] digits [. digits] [(e|E) [sign] digits]`
into its exact value, as `Decimal(<string>)` accepts (whitespace trimmed;
non-finite spellings are outside the model). -/
def parseDecStr (s : String) : Option Dec :=
  let cs := (s.data.dropWhile isWs).reverse.dropWhile isWs |>.reverse
  let (sgn, cs) := match cs with
    | '-' :: rest => (true, rest)
    | '+' :: rest => (false, rest)
    | rest => (false, rest)
  let ip := cs.takeWhile Char.isDigit
  let rest := cs.drop ip.length
  let (fp, rest) := match rest with
    | '.' :: r => (r.takeWhile Char.isDigit, r.drop (r.takeWhile Char.isDigit).length)
    | r => ([], r)
  let (expo, rest) := match rest with
    | 'e' :: r | 'E' :: r =>
      let (esgn, r') := match r with
        | '-' :: rr => (true, rr)
        | '+' :: rr => (false, rr)
        | rr => (false, rr)
      let ed := r'.takeWhile Char.isDigit
      if ed = [] then (Option.none, r')
      else (some ((if esgn then -(digitsVal ed : ℤ) else (digitsVal ed : ℤ))), r'.drop ed.length)
    | r => (some 0, r)
  match expo with
  | Option.none => Option.none
  | some e =>
    if rest ≠ [] ∨ (ip = [] ∧ fp = []) then Option.none
    else
      let m : ℤ := digitsVal (ip ++ fp)
      some (Dec.norm ⟨(if sgn then -m else m), e - fp.length⟩)

/-- Python `int(...)` applied to a characteristic value: truncates numbers
toward zero, parses integer literal strings, raises `ValueError` on
non-integer strings and `TypeError` on non-numeric objects. -/
def pyToInt : PyVal → Except PyExn ℤ
  | .bool b => .ok (if b then 1 else 0)
  | .int n => .ok n
  | .float d => .ok d.trunc
  | .str s =>
    let cs := (s.data.dropWhile isWs).reverse.dropWhile isWs |>.reverse
    let (sgn, ds) := match cs with
      | '-' :: rest => (true, rest)
      | '+' :: rest => (false, rest)
      | rest => (false, rest)
    if ds ≠ [] ∧ ds.all Char.isDigit then
      .ok (if sgn then -(digitsVal ds : ℤ) else (digitsVal ds : ℤ))
    else .error .valueError
  | _ => .error .typeError

/-- Python `float(...)` likewise (result carried exactly). -/
def pyToFloat : PyVal → Except PyExn Dec
  | .bool b => .ok (Dec.ofInt (if b then 1 else 0))
  | .int n => .ok (Dec.ofInt n)
  | .float d => .ok d.norm
  | .str s =>
    match parseDecStr s with
    | some d => .ok d
    | Option.none => .error .valueError
  | _ => .error .typeError

/-- `Decimal(val)`: exact from `int`/`float`/`bool`, string parse raising
`decimal.InvalidOperation` (not `ValueError`) on failure, `TypeError` on
other objects. -/
def decimalOf : PyVal → Except PyExn Dec
  | .bool b => .ok (Dec.ofInt (if b then 1 else 0))
  | .int n => .ok (Dec.ofInt n)
  | .float d => .ok d.norm
  | .str s =>
    match parseDecStr s with
    | some d => .ok d
    | Option.none => .error .invalidOperation
  | _ => .error .typeError

/-- Python `==` as used by `in` on `valid_values`: numeric cross-type value
equality, structural equality otherwise. -/
def pyEq (a b : PyVal) : Bool :=
  match toDec a, toDec b with
  | some x, some y => Dec.beqv x y
  | _, _ => a = b

/-! ## Byte-level codecs (`struct`, `base64`, UTF-8, hex, TLV) -/

/-- Little-endian value of a byte list. -/
def leVal (bs : List ℕ) : ℕ := bs.foldr (fun b a => b % 256 + 256 * a) 0

/-- Little-endian bytes of width `w` for a value already reduced mod `256^w`. -/
def leBytes (w : ℕ) (n : ℕ) : List ℕ := (List.range w).map (fun i => n / 256 ^ i % 256)

/-- `struct.unpack` of one unsigned field of width `w`: the buffer length must
match exactly, else `struct.error`. -/
def unpackUInt (w : ℕ) (bs : List ℕ) : Except PyExn ℕ :=
  if bs.length = w then .ok (leVal bs) else .error .structError

/-- `struct.unpack("i", ...)`: signed 32-bit little-endian two's complement. -/
def unpackInt32 (bs : List ℕ) : Except PyExn ℤ :=
  if bs.length = 4 then
    let n := leVal bs
    .ok (if n < 2 ^ 31 then (n : ℤ) else (n : ℤ) - 2 ^ 32)
  else .error .structError

/-- `struct.pack("i", n)`: range-checked signed 32-bit little-endian. -/
def packInt32 (n : ℤ) : Except PyExn (List ℕ) :=
  if -(2 ^ 31) ≤ n ∧ n < 2 ^ 31 then .ok (leBytes 4 ((n % 2 ^ 32).toNat))
  else .error .structError

/-- Number of binary digits, fuel-driven like `digitsOf`. -/
def bitsFuel : ℕ → ℕ → ℕ
  | 0, _ => 0
  | f + 1, n => if n = 0 then 0 else bitsFuel f (n / 2) + 1

def bitsOf (n : ℕ) : ℕ := bitsFuel n n

/-- Round the quotient `p / q` (`q` nonzero) to the nearest integer, half-even. -/
def halfEvenDiv (p q : ℕ) : ℕ :=
  let d := p / q
  let r := p % q
  if q < 2 * r then d + 1
  else if 2 * r < q then d
  else if d % 2 = 0 then d else d + 1

/-- The exact decimal value of `m * 2 ^ e`. -/
def decOfPow2 (m : ℕ) (e : ℤ) (neg : Bool) : Dec :=
  let mm : ℤ := if neg then -(m : ℤ) else (m : ℤ)
  if 0 ≤ e then Dec.norm ⟨mm * 2 ^ e.toNat, 0⟩
  else Dec.norm ⟨mm * 5 ^ (-e).toNat, e⟩

/-- `struct.unpack("f", ...)`: IEEE-754 binary32 decode into an exact decimal;
non-finite payloads (exponent field 255) are outside the idealisation and are
flagged as `nonfiniteFloat`. -/
def unpackF32 (bs : List ℕ) : Except PyExn Dec :=
  if bs.length = 4 then
    let n := leVal bs
    let neg := 2 ^ 31 ≤ n
    let e : ℕ := n / 2 ^ 23 % 256
    let m := n % 2 ^ 23
    if e = 255 then .error .nonfiniteFloat
    else if e = 0 then .ok (decOfPow2 m (-149) neg)
    else .ok (decOfPow2 (2 ^ 23 + m) ((e : ℤ) - 150) neg)
  else .error .structError

/-- The numerator/denominator pair of a decimal as nonnegative integers. -/
def Dec.absFrac (d : Dec) : ℕ × ℕ :=
  if 0 ≤ d.exp then (d.mant.natAbs * 10 ^ d.exp.toNat, 1)
  else (d.mant.natAbs, 10 ^ (-d.exp).toNat)

/-- Binary exponent `b` of a positive rational `p / q`: `2 ^ b ≤ p / q < 2 ^ (b + 1)`. -/
def ratLog2 (p q : ℕ) : ℤ :=
  let b0 : ℤ := (bitsOf p : ℤ) - (bitsOf q : ℤ)
  if 0 ≤ b0 then (if 2 ^ b0.toNat * q ≤ p then b0 else b0 - 1)
  else (if q ≤ 2 ^ (-b0).toNat * p then b0 else b0 - 1)

/-- `struct.pack("f", x)`: round the exact value to IEEE-754 binary32
(round-to-nearest, ties-to-even) and emit the 4 little-endian bytes;
`OverflowError` when the magnitude exceeds the largest finite binary32. -/
def packF32 (d : Dec) : Except PyExn (List ℕ) :=
  if d.mant = 0 then .ok [0, 0, 0, 0]
  else
    let neg := d.mant < 0
    let (p, q) := d.absFrac
    let b := ratLog2 p q
    let sgnBit : ℕ := if neg then 2 ^ 31 else 0
    if b < -126 then
      -- subnormal range: round p/q / 2^-149; a carry to 2^23 lands exactly on
      -- the smallest normal encoding because the exponent field overflows by one
      let m := halfEvenDiv (p * 2 ^ 149) q
      .ok (leBytes 4 (sgnBit + m))
    else
      let t : ℤ := b - 23
      let m := if 0 ≤ t then halfEvenDiv p (q * 2 ^ t.toNat) else halfEvenDiv (p * 2 ^ (-t).toNat) q
      let (m, b) := if m = 2 ^ 24 then (2 ^ 23, b + 1) else (m, b)
      if 127 < b then .error .overflowError
      else .ok (leBytes 4 (sgnBit + (b + 127).toNat * 2 ^ 23 + (m - 2 ^ 23)))

def hexDigitChar (n : ℕ) : Char := if n < 10 then Char.ofNat (48 + n) else Char.ofNat (87 + n)

/-- `bytes.hex()`. -/
def hexStr (bs : List ℕ) : String :=
  ⟨(bs.map (fun b => [hexDigitChar (b / 16), hexDigitChar (b % 16)])).flatten⟩

/-- UTF-8 encoding of one code point. -/
def utf8EncodeChar (c : Char) : List ℕ :=
  let n := c.toNat
  if n < 128 then [n]
  else if n < 2048 then [192 + n / 64, 128 + n % 64]
  else if n < 65536 then [224 + n / 4096, 128 + n / 64 % 64, 128 + n % 64]
  else [240 + n / 262144, 128 + n / 4096 % 64, 128 + n / 64 % 64, 128 + n % 64]

/-- Python `str.encode()`. -/
def utf8Encode (s : String) : List ℕ := (s.data.map utf8EncodeChar).flatten

def isCont (b : ℕ) : Bool := 128 ≤ b ∧ b < 192

/-- Strict UTF-8 decoding (fuel-driven): rejects truncated sequences,
continuation errors, overlong forms, surrogates and out-of-range values,
as Python `bytes.decode("UTF-8")` does. -/
def utf8DecodeAux : ℕ → List ℕ → Option (List Char)
  | _, [] => some []
  | 0, _ :: _ => Option.none
  | f + 1, b :: rest =>
    if b < 128 then (utf8DecodeAux f rest).map (fun cs => Char.ofNat b :: cs)
    else if b < 194 then Option.none
    else if b < 224 then
      match rest with
      | c1 :: r =>
        if isCont c1 then
          (utf8DecodeAux f r).map (fun cs => Char.ofNat ((b - 192) * 64 + (c1 - 128)) :: cs)
        else Option.none
      | _ => Option.none
    else if b < 240 then
      match rest with
      | c1 :: c2 :: r =>
        let lo := if b = 224 then 160 else 128
        if lo ≤ c1 ∧ c1 < 192 ∧ isCont c2 then
          let n := (b - 224) * 4096 + (c1 - 128) * 64 + (c2 - 128)
          if 55296 ≤ n ∧ n ≤ 57343 then Option.none
          else (utf8DecodeAux f r).map (fun cs => Char.ofNat n :: cs)
        else Option.none
      | _ => Option.none
    else if b < 245 then
      match rest with
      | c1 :: c2 :: c3 :: r =>
        let lo := if b = 240 then 144 else 128
        let hi := if b = 244 then 144 else 192
        if lo ≤ c1 ∧ c1 < hi ∧ isCont c2 ∧ isCont c3 then
          let n := (b - 240) * 262144 + (c1 - 128) * 4096 + (c2 - 128) * 64 + (c3 - 128)
          (utf8DecodeAux f r).map (fun cs => Char.ofNat n :: cs)
        else Option.none
      | _ => Option.none
    else Option.none

def utf8Decode (bs : List ℕ) : Option String := (utf8DecodeAux bs.length bs).map (⟨·⟩)

def b64DigitOf (c : Char) : Option ℕ :=
  if 'A' ≤ c ∧ c ≤ 'Z' then some (c.toNat - 65)
  else if 'a' ≤ c ∧ c ≤ 'z' then some (c.toNat - 71)
  else if '0' ≤ c ∧ c ≤ '9' then some (c.toNat + 4)
  else if c = '+' then some 62
  else if c = '/' then some 63
  else Option.none

/-- Reassemble 6-bit groups into bytes, discarding padding bits. -/
def b64Groups : List ℕ → List ℕ
  | a :: b :: c :: d :: rest =>
    (a * 4 + b / 16) :: (b % 16 * 16 + c / 4) :: (c % 4 * 64 + d) :: b64Groups rest
  | [a, b] => [a * 4 + b / 16]
  | [a, b, c] => [a * 4 + b / 16, b % 16 * 16 + c / 4]
  | _ => []

/-- Model of `base64.decodebytes` / `binascii.a2b_base64` in its default
lenient mode: non-alphabet characters are ignored, data stops at the first
`=`, and a padding error is raised when the character count (with padding)
is not a multiple of four or a lone data character remains. -/
def b64decode (s : String) : Option (List ℕ) :=
  let kept := s.data.filter (fun c => (b64DigitOf c).isSome ∨ c = '=')
  let body := kept.takeWhile (· ≠ '=')
  let pads := (kept.drop body.length).length
  let ds := body.filterMap b64DigitOf
  if (ds.length + pads) % 4 = 0 ∧ ds.length % 4 ≠ 1 then some (b64Groups ds)
  else Option.none

/-- Modelled from the spec: the structured-blob decoder
(`aiohomekit.protocol.tlv.TLV.decode_bytes`, outside `src/`) parses the
payload as a sequence of tag-length-value records and "malformed structure →
fails(FormatViolation: malformed-structure)"; a truncated record is malformed. -/
def tlvItemsAux : ℕ → List ℕ → Option (List (ℕ × List ℕ))
  | _, [] => some []
  | 0, _ :: _ => Option.none
  | _ + 1, [_] => Option.none
  | f + 1, t :: l :: rest =>
    if rest.length < l then Option.none
    else (tlvItemsAux f (rest.drop l)).map (fun items => (t, rest.take l) :: items)

def tlvDecodeOk (bs : List ℕ) : Bool := (tlvItemsAux bs.length bs).isSome

/-! ## The `Characteristic` entity -/

/-- `Characteristic`: the state a `characteristic.py` instance carries after
construction.  The `ToDictMixin`/service plumbing is identity-only here; the
kwargs/database merge of `_get_configuration` is abstracted as the resolved
configuration values the constructor receives. -/
structure Characteristic where
  type : String
  iid : ℕ
  perms : List CharacteristicPermissions
  format : CharacteristicFormats
  ev : PyVal := .none
  description : Option String := Option.none
  unit : Option String := Option.none
  minValue : Option PyVal := Option.none
  maxValue : Option PyVal := Option.none
  minStep : Option PyVal := Option.none
  maxLen : ℕ := 64
  maxDataLen : ℕ := 2097152
  valid_values : Option (List PyVal) := Option.none
  valid_values_range : Option (PyVal × PyVal) := Option.none
  value : PyVal := .none
deriving DecidableEq, Repr

/-- `DEFAULT_FOR_TYPE` (lines 38-49); `.get(format, None)` yields `None` for
the blob formats that are absent from the table. -/
def DEFAULT_FOR_TYPE : CharacteristicFormats → PyVal
  | .bool => .bool false
  | .uint8 | .uint16 | .uint32 | .uint64 | .int => .int 0
  | .float => .float ⟨0, 0⟩
  | .string => .str ""
  | .array => .arrEmpty
  | .dict => .dictEmpty
  | .data | .tlv8 => .none

def INTEGER_TYPES : List CharacteristicFormats :=
  [.uint64, .uint32, .uint16, .uint8, .int]

def NUMBER_TYPES : List CharacteristicFormats := INTEGER_TYPES ++ [.float]

/-- Python `max(a, b)` on characteristic values (numeric comparison,
`TypeError` for non-numeric operands). -/
def pyMax (a b : PyVal) : Except PyExn PyVal :=
  match toDec a, toDec b with
  | some x, some y => .ok (if Dec.blt x y then b else a)
  | _, _ => .error .typeError

def pyMin (a b : PyVal) : Except PyExn PyVal :=
  match toDec a, toDec b with
  | some x, some y => .ok (if Dec.blt y x then b else a)
  | _, _ => .error .typeError

/-- The initial `self.value` computed by `Characteristic.__init__`
(lines 87-110): starts as `None`; returns early when read permission is
missing, when an explicit `value` kwarg is present, or when `valid_values` is
truthy (non-empty); otherwise takes the `DEFAULT_FOR_TYPE` entry and then,
for each truthy bound, replaces a falsy current value by the bound before
applying `max`/`min` with it. -/
def initialValue (perms : List CharacteristicPermissions)
    (explicitValue : Option PyVal) (valid_values : Option (List PyVal))
    (format : CharacteristicFormats) (minValue maxValue : Option PyVal) :
    Except PyExn PyVal :=
  if CharacteristicPermissions.paired_read ∉ perms then .ok .none
  else
    match explicitValue with
    | some v => .ok v
    | Option.none =>
      match valid_values with
      | some (v :: _) => .ok v
      | _ => do
        let v0 := DEFAULT_FOR_TYPE format
        let v1 ← match minValue with
          | some mv =>
            if pyTruthy mv then pyMax (if pyTruthy v0 then v0 else mv) mv
            else pure v0
          | Option.none => pure v0
        match maxValue with
        | some mv =>
          if pyTruthy mv then pyMin (if pyTruthy v1 then v1 else mv) mv
          else pure v1
        | Option.none => pure v1

/-- `Characteristic.__init__` with the configuration already resolved. -/
def mkCharacteristic (type : String) (iid : ℕ)
    (perms : List CharacteristicPermissions) (format : CharacteristicFormats)
    (explicitValue : Option PyVal := Option.none)
    (valid_values : Option (List PyVal) := Option.none)
    (minValue maxValue minStep : Option PyVal := Option.none)
    (description unit : Option String := Option.none) :
    Except PyExn Characteristic :=
  (initialValue perms explicitValue valid_values format minValue maxValue).map
    fun v =>
      { type := type, iid := iid, perms := perms, format := format
        description := description, unit := unit
        minValue := minValue, maxValue := maxValue, minStep := minStep
        valid_values := valid_values, value := v }

/-! ## The strict write path `set_value` (lines 133-204)

The function is modelled as a state-threading computation: an exception
carries the `Characteristic` state as it stood at the raise site, so that
what a failing write leaves behind is part of the model, not an artefact
of purity. -/

/-- The format-conversion block (lines 142-159) without its
`except ValueError` wrapper. -/
def convertForFormat (format : CharacteristicFormats) (new_val : PyVal) :
    Except PyExn PyVal :=
  if format ∈ INTEGER_TYPES then (pyToInt new_val).map .int
  else if format = .float then (pyToFloat new_val).map .float
  else if format = .bool then (strtobool (pyStr new_val)).map .int
  else .ok new_val

/-- Lines 169-170: `if self.minValue is not None and new_val < self.minValue`. -/
def minCheck (c : Characteristic) (nd : Dec) : Except PyExn Unit :=
  match c.minValue with
  | some mv =>
    match toDec mv with
    | some md =>
      if Dec.blt nd md then .error (.formatError HapStatusCodes.INVALID_VALUE) else .ok ()
    | Option.none => .error .typeError
  | Option.none => .ok ()

/-- Lines 171-172: `if self.maxValue is not None and self.maxValue < new_val`. -/
def maxCheck (c : Characteristic) (nd : Dec) : Except PyExn Unit :=
  match c.maxValue with
  | some mv =>
    match toDec mv with
    | some md =>
      if Dec.blt md nd then .error (.formatError HapStatusCodes.INVALID_VALUE) else .ok ()
    | Option.none => .error .typeError
  | Option.none => .ok ()

/-- Lines 173-182: the exact-decimal step check, offset by `minValue` when it
is not `None` (`tmp -= self.minValue`), comparing
`Decimal(str(tmp)) % Decimal(str(self.minStep))` against zero.  The step is
numeric here (`toDec`); a non-numeric step is a configuration error outside
every claim. -/
def stepCheck (c : Characteristic) (nd : Dec) : Except PyExn Unit :=
  match c.minStep with
  | some ms => do
    let tmp ← match c.minValue with
      | some mv =>
        match toDec mv with
        | some md => pure (Dec.sub nd md)
        | Option.none => throw .typeError
      | Option.none => pure nd
    match toDec ms with
    | some sd =>
      if sd.mant = 0 then throw .invalidOperation
      else if ¬ Dec.divisibleBy tmp sd then throw (.formatError HapStatusCodes.INVALID_VALUE)
      else pure ()
    | Option.none => throw .typeError
  | Option.none => pure ()

/-- Lines 183-184: `if self.valid_values is not None and new_val not in ...`. -/
def validValuesCheck (c : Characteristic) (nv : PyVal) : Except PyExn Unit :=
  match c.valid_values with
  | some vs =>
    if ¬ vs.any (pyEq nv) then .error (.formatError HapStatusCodes.INVALID_VALUE) else .ok ()
  | Option.none => .ok ()

/-- Lines 185-188: the `valid_values_range` interval check. -/
def validValuesRangeCheck (c : Characteristic) (nd : Dec) : Except PyExn Unit :=
  match c.valid_values_range with
  | some (lo, hi) =>
    match toDec lo, toDec hi with
    | some ld, some hd =>
      if ¬ (Dec.ble ld nd ∧ Dec.ble nd hd) then
        .error (.formatError HapStatusCodes.INVALID_VALUE)
      else .ok ()
    | _, _ => .error .typeError
  | Option.none => .ok ()

/-- The numeric constraint block (lines 161-188) on the converted value:
range rejection, exact-decimal step rejection, membership in `valid_values`,
and `valid_values_range`, in source order. -/
def numericChecks (c : Characteristic) (nv : PyVal) : Except PyExn Unit := do
  let nd ← match toDec nv with
    | some d => pure d
    | Option.none => throw .typeError
  minCheck c nd
  maxCheck c nd
  stepCheck c nd
  validValuesCheck c nv
  validValuesRangeCheck c nd

/-- `Characteristic.set_value`.  Failures carry the state at the raise site;
`self.value` is assigned only on the final line of the Python function. -/
def set_value (c : Characteristic) (new_val : PyVal) :
    Except (PyExn × Characteristic) Characteristic := do
  if CharacteristicPermissions.paired_write ∉ c.perms then
    throw (.permissionError HapStatusCodes.CANT_WRITE_READ_ONLY, c)
  let nv ← match convertForFormat c.format new_val with
    | .ok v => pure v
    | .error e =>
      -- `except ValueError: raise FormatError(INVALID_VALUE)`; anything
      -- else propagates
      throw ((if e = .valueError then .formatError HapStatusCodes.INVALID_VALUE else e), c)
  if c.format ∈ NUMBER_TYPES then
    match numericChecks c nv with
    | .ok _ => pure ()
    | .error e => throw (e, c)
  if c.format = .data then
    match nv with
    | .str s =>
      match b64decode s with
      | some byte_data =>
        if c.maxDataLen < byte_data.length then
          throw (.formatError HapStatusCodes.INVALID_VALUE, c)
      | Option.none => throw (.formatError HapStatusCodes.INVALID_VALUE, c)
    | _ =>
      -- `new_val.encode()` raises AttributeError, swallowed by the blanket
      -- `except Exception` into OUT_OF_RESOURCES
      throw (.formatError HapStatusCodes.OUT_OF_RESOURCES, c)
  if c.format = .string then
    match nv with
    | .str s =>
      if c.maxLen < s.length then throw (.formatError HapStatusCodes.INVALID_VALUE, c)
    | _ => throw (.typeError, c)
  return { c with value := nv }

/-- `Characteristic.get_value` (lines 228-239). -/
def get_value (c : Characteristic) : Except PyExn PyVal :=
  if CharacteristicPermissions.paired_read ∉ c.perms then
    .error (.permissionError HapStatusCodes.CANT_READ_WRITE_ONLY)
  else .ok c.value

/-- The Python string values of the format tags. -/
def formatName : CharacteristicFormats → String
  | .bool => "bool"
  | .uint8 => "uint8"
  | .uint16 => "uint16"
  | .uint32 => "uint32"
  | .uint64 => "uint64"
  | .int => "int"
  | .float => "float"
  | .string => "string"
  | .data => "data"
  | .tlv8 => "tlv8"
  | .array => "array"
  | .dict => "dict"

/-- The `FormatError` message built by the string-format template
used throughout `characteristic.py`. -/
def quoteMsg (v t : String) : String :=
  "\"" ++ v ++ "\" is no valid \"" ++ t ++ "\"!"

/-! ## BLE transport (lines 206-260) -/

/-- The per-format decode of `set_value_from_ble` (lines 207-224): `struct`
unpack for the fixed-width formats, UTF-8 decode for strings, hex string for
everything else. -/
def decodeBle (format : CharacteristicFormats) (bs : List ℕ) : Except PyExn PyVal :=
  match format with
  | .bool => (unpackUInt 1 bs).map (fun n => .bool (n ≠ 0))
  | .uint8 => (unpackUInt 1 bs).map (fun n => .int n)
  | .uint16 => (unpackUInt 2 bs).map (fun n => .int n)
  | .uint32 => (unpackUInt 4 bs).map (fun n => .int n)
  | .uint64 => (unpackUInt 8 bs).map (fun n => .int n)
  | .int => (unpackInt32 bs).map .int
  | .float => (unpackF32 bs).map .float
  | .string =>
    match utf8Decode bs with
    | some s => .ok (.str s)
    | Option.none => .error .unicodeDecodeError
  | _ => .ok (.str (hexStr bs))

/-- `Characteristic.set_value_from_ble` (lines 206-226): decode the payload
for the format, then hand the result to `set_value`. -/
def set_value_from_ble (c : Characteristic) (bs : List ℕ) :
    Except (PyExn × Characteristic) Characteristic :=
  match decodeBle c.format bs with
  | .ok v => set_value c v
  | .error e => .error (e, c)

/-- `Characteristic.get_value_for_ble` (lines 241-260): permission-checked
read, then `struct` packing — but only for `bool`, `int`, `float` and
`string`; every other format (including all the unsigned widths) falls
through and returns the stored value object unchanged. -/
def get_value_for_ble (c : Characteristic) : Except PyExn PyVal := do
  let value ← get_value c
  match c.format with
  | .bool =>
    match strtobool (pyStr value) with
    | .ok n => .ok (.bytes [if n ≠ 0 then 1 else 0])
    | .error _ =>
      .error (.formatErrorMsg (quoteMsg (pyStr value) "bool"))
  | .int => do
    let n ← pyToInt value
    (packInt32 n).map .bytes
  | .float => do
    let d ← pyToFloat value
    (packF32 d).map .bytes
  | .string =>
    match value with
    | .str s => .ok (.bytes (utf8Encode s))
    | _ => .error .attributeError
  | _ => .ok value

/-- The round trip the spec asserts for fixed-width formats: encode the
stored value for the transport, then decode it back in. -/
def ble_round_trip (c : Characteristic) : Except (PyExn × Characteristic) Characteristic :=
  match get_value_for_ble c with
  | .ok (.bytes bs) => set_value_from_ble c bs
  | .ok _ => .error (.typeError, c)  -- struct.unpack on a non-buffer object
  | .error e => .error (e, c)

/-! ## The lenient pipeline `check_convert_value` (lines 304-377) -/

/-- The clamping statements of `check_convert_value` (lines 332-336):
`val = max(Decimal(char.minValue), val)` then `val = min(Decimal(char.maxValue), val)`
for whichever bound is present.  Bounds are numeric here (`toDec`); a
non-numeric bound is a configuration error outside every claim (Python's
`Decimal` would additionally accept a numeric string there). -/
def clampBounds (c : Characteristic) (vd : Dec) : Except PyExn Dec := do
  let vd ← match c.minValue with
    | some mv =>
      match toDec mv with
      | some md => pure (if Dec.blt vd md then md else vd)
      | Option.none => throw .typeError
    | Option.none => pure vd
  match c.maxValue with
  | some mv =>
    match toDec mv with
    | some md => pure (if Dec.blt md vd then md else vd)
    | Option.none => throw .typeError
  | Option.none => pure vd

/-- The step-snapping statement of `check_convert_value` (lines 341-357):
when `min_step` is set, snap inside a `prec = 6` / `ROUND_HALF_UP` decimal
context via `offset + ((val - offset) / min_step).to_integral_value() *
min_step` with `offset = minValue if minValue is not None else 0`. -/
def snapToStep (c : Characteristic) (vd : Dec) : Except PyExn Dec := do
  match c.minStep with
  | some ms =>
    match toDec ms with
    | some min_step =>
      if min_step.mant = 0 then throw .invalidOperation
      else do
        let offset ← match c.minValue with
          | some mv =>
            match toDec mv with
            | some md => pure md
            | Option.none => throw .typeError
          | Option.none => pure (Dec.ofInt 0)
        let q := Dec.intHU (Dec.divRound6 (Dec.roundSig 6 (Dec.sub vd offset)) min_step)
        pure (Dec.roundSig 6 (Dec.add offset (Dec.roundSig 6 (Dec.mul (Dec.ofInt q) min_step))))
    | Option.none => throw .typeError
  | Option.none => pure vd

/-- The numeric transformation of `check_convert_value` after a successful
`Decimal(val)`: the two clamping statements followed by the snapping
statement, in source order. -/
def clampAndSnap (c : Characteristic) (vd : Dec) : Except PyExn Dec :=
  clampBounds c vd >>= snapToStep c

/-- `check_convert_value(val, char)`: the lenient coercion pipeline.  Note the
numeric parse failure: `Decimal(val)` raises `decimal.InvalidOperation`,
which the `except ValueError` clause does not catch. -/
def check_convert_value (val : PyVal) (c : Characteristic) : Except PyExn PyVal :=
  if c.format = .bool then
    match strtobool (pyStr val) with
    | .ok n => .ok (.int (if n ≠ 0 then 1 else 0))
    | .error _ => .error (.formatErrorMsg (quoteMsg (pyStr val) (formatName c.format)))
  else if c.format ∈ NUMBER_TYPES then
    match decimalOf val with
    | .error e =>
      .error (if e = .valueError then .formatErrorMsg (quoteMsg (pyStr val) (formatName c.format)) else e)
    | .ok vd =>
      match clampAndSnap c vd with
      | .error e => .error e
      | .ok vd =>
        if c.format ∈ INTEGER_TYPES then .ok (.int (Dec.intHE vd))
        else .ok (.float vd)
  else if c.format = .data then
    match val with
    | .str s =>
      match b64decode s with
      | some _ => .ok val
      | Option.none => .error (.formatErrorMsg (quoteMsg s (formatName c.format)))
    | _ => .error .attributeError
  else if c.format = .tlv8 then
    match val with
    | .str s =>
      match b64decode s with
      | some bs =>
        if tlvDecodeOk bs then .ok val else .error (.formatErrorMsg (quoteMsg s (formatName c.format)))
      | Option.none => .error (.formatErrorMsg (quoteMsg s (formatName c.format)))
    | _ => .error .attributeError
  else .ok val

/-! ## The wire descriptor (lines 276-301) -/

/-- A value in the `to_accessory_and_service_list` record. -/
inductive DVal
  | pv (v : PyVal)
  | ps (l : List CharacteristicPermissions)
  | vals (l : List PyVal)
  | n (k : ℕ)
  | s (str : String)
deriving DecidableEq, Repr

/-- One optional descriptor entry guarded by `if self.<attr>:` for an
optional numeric attribute: emitted only when present and truthy, so a
configured `0`/`0.0` bound or step is omitted exactly like an absent one. -/
def optPvEntry (key : String) (o : Option PyVal) : List (String × DVal) :=
  match o with
  | some v => if pyTruthy v then [(key, DVal.pv v)] else []
  | Option.none => []

/-- One optional descriptor entry for an optional string attribute
(`None` and the empty string are both falsy). -/
def optStrEntry (key : String) (o : Option String) : List (String × DVal) :=
  match o with
  | some d => if d ≠ "" then [(key, DVal.s d)] else []
  | Option.none => []

/-- The `valid-values` descriptor entry (an empty list is falsy). -/
def validValuesEntry (o : Option (List PyVal)) : List (String × DVal) :=
  match o with
  | some vs => if vs ≠ [] then [("valid-values", DVal.vals vs)] else []
  | Option.none => []

/-- `Characteristic.to_accessory_and_service_list`: the wire-facing record,
as an insertion-ordered key/value list.  Optional entries are emitted only
when the stored attribute is truthy — `None`, `0`, `0.0` and empty strings
are all skipped. -/
def to_accessory_and_service_list (c : Characteristic) : List (String × DVal) :=
  [("type", DVal.s c.type), ("iid", DVal.n c.iid),
   ("perms", DVal.ps c.perms), ("format", DVal.s (formatName c.format))]
  ++ (if CharacteristicPermissions.paired_read ∈ c.perms then [("value", DVal.pv c.value)] else [])
  ++ (if pyTruthy c.ev then [("ev", DVal.pv c.ev)] else [])
  ++ optStrEntry "description" c.description
  ++ optStrEntry "unit" c.unit
  ++ optPvEntry "minValue" c.minValue
  ++ optPvEntry "maxValue" c.maxValue
  ++ optPvEntry "minStep" c.minStep
  ++ (if c.maxLen ≠ 0 ∧ c.format = .string then [("maxLen", DVal.n c.maxLen)] else [])
  ++ validValuesEntry c.valid_values

/-! ## Concrete instances used by the claims -/

/-- A readable/writable `uint8` characteristic with `min_value=0`,
`max_value=100`, `min_step=10`. -/
def cStep10 : Characteristic :=
  { type := "test.step10", iid := 1
    perms := [.paired_read, .paired_write], format := .uint8
    minValue := some (.int 0), maxValue := some (.int 100)
    minStep := some (.int 10), value := .int 0 }

/-- A readable/writable `uint8` characteristic with only `max_value=100`. -/
def cMax100 : Characteristic :=
  { type := "test.max100", iid := 2
    perms := [.paired_read, .paired_write], format := .uint8
    maxValue := some (.int 100), value := .int 0 }

/-- A write-only `uint8` characteristic. -/
def cWriteOnly : Characteristic :=
  { type := "test.writeonly", iid := 3
    perms := [.paired_write], format := .uint8, value := .none }

/-- A readable/writable unconstrained `uint8` characteristic holding `5`. -/
def cUint8 : Characteristic :=
  { type := "test.uint8", iid := 4
    perms := [.paired_read, .paired_write], format := .uint8, value := .int 5 }

/-- A read-only `uint8` characteristic (no write permission). -/
def cReadOnly : Characteristic :=
  { type := "test.readonly", iid := 5
    perms := [.paired_read], format := .uint8, value := .int 0 }

/-- A write-only characteristic with `min_step=0` recorded as set. -/
def cZeroBounds : Characteristic :=
  { type := "test.zerobounds", iid := 6
    perms := [.paired_read, .paired_write], format := .uint8
    minValue := some (.int 0), maxValue := some (.int 0)
    minStep := some (.int 0), value := .int 0 }

/-! ## Sanity checks: the model evaluated at concrete inputs -/

example : Dec.divRound6 (Dec.ofInt 55) (Dec.ofInt 10) = ⟨55, -1⟩ := by decide
example : Dec.intHU ⟨55, -1⟩ = 6 := by decide
example : Dec.intHE ⟨55, -1⟩ = 6 := by decide
example : Dec.intHE ⟨45, -1⟩ = 4 := by decide
example : Dec.blt (Dec.ofInt 100) (Dec.ofInt 150) = true := by decide
example : Dec.roundSig 6 ⟨123456789, -4⟩ = ⟨123457, -1⟩ := by decide
example : strtobool "True" = .ok 1 := by decide
example : strtobool "maybe" = .error .valueError := by decide
example : parseDecStr "55" = some ⟨55, 0⟩ := by decide
example : parseDecStr "5.5" = some ⟨55, -1⟩ := by decide
example : parseDecStr "-0.10" = some ⟨-1, -1⟩ := by decide
example : parseDecStr "1e3" = some ⟨1, 3⟩ := by decide
example : parseDecStr "abc" = Option.none := by decide
example : pyToInt (.str "5.5") = .error .valueError := by decide
example : pyToInt (.float ⟨-55, -1⟩) = .ok (-5) := by decide
example : unpackUInt 1 [55] = .ok 55 := by decide
example : unpackInt32 [255, 255, 255, 255] = .ok (-1) := by decide
example : unpackF32 [0, 0, 192, 63] = .ok ⟨15, -1⟩ := by decide
example : packF32 ⟨15, -1⟩ = .ok [0, 0, 192, 63] := by decide
example : hexStr [171, 1] = "ab01" := by decide
example : utf8Decode [104, 105] = some "hi" := by decide
example : utf8Encode "hi" = [104, 105] := by decide
example : b64decode "aGk=" = some [104, 105] := by decide
example : b64decode "a" = Option.none := by decide
example : set_value cStep10 (.int 55)
    = .error (.formatError HapStatusCodes.INVALID_VALUE, cStep10) := by decide
example : set_value cStep10 (.int 50) = .ok { cStep10 with value := .int 50 } := by decide
example : set_value_from_ble cStep10 [55]
    = .error (.formatError HapStatusCodes.INVALID_VALUE, cStep10) := by decide
example : set_value_from_ble cStep10 [50] = .ok { cStep10 with value := .int 50 } := by decide
example : check_convert_value (.int 55) cStep10 = .ok (.int 60) := by decide
example : check_convert_value (.int 150) cMax100 = .ok (.int 100) := by decide
example : check_convert_value (.str "abc") cUint8 = .error .invalidOperation := by decide
example : get_value_for_ble cUint8 = .ok (.int 5) := by decide
example : ble_round_trip cUint8 = .error (.typeError, cUint8) := by decide
example : set_value cWriteOnly (.int 5) = .ok { cWriteOnly with value := .int 5 } := by decide
example : initialValue [.paired_read] Option.none Option.none .uint8
    Option.none (some (.int 100)) = .ok (.int 100) := by decide
example : initialValue [.paired_read] Option.none Option.none .uint8
    (some (.int 3)) (some (.int 100)) = .ok (.int 3) := by decide

/-! ## The claims -/

/-- C1, counterexample: `set_value_from_ble` does apply the strict pipeline.
On a uint8 characteristic with min=0, max=100, step=10, the BLE payload
`[55]` decodes to `55` and is then rejected by the strict not-a-step-multiple
check with a `FormatError`, which the claim says can never happen. -/
theorem C1_counterexample :
    set_value_from_ble cStep10 [55]
      = .error (.formatError HapStatusCodes.INVALID_VALUE, cStep10) := by decide

/-- C1, amended: `set_value_from_ble` decodes the payload for the format and
hands the result to the strict `set_value` pipeline — so it demands write
permission (first conjunct: a decodable uint8 payload on a characteristic
without write permission raises `CharacteristicPermissionError`), and, as the
dedicated counterexample shows, it is subject to the strict step/enum/range
rejections.  The second conjunct states the decode-then-strict-write
factoring, and the third shows the strict pipeline succeeding over BLE. -/
theorem C1_strict_pipeline :
    (∀ (c : Characteristic) (b : ℕ), c.format = .uint8 →
      CharacteristicPermissions.paired_write ∉ c.perms →
      set_value_from_ble c [b]
        = .error (.permissionError HapStatusCodes.CANT_WRITE_READ_ONLY, c))
    ∧ (∀ (c : Characteristic) (bs : List ℕ) (v : PyVal),
        decodeBle c.format bs = .ok v → set_value_from_ble c bs = set_value c v)
    ∧ set_value_from_ble cStep10 [50] = .ok { cStep10 with value := .int 50 } := by
  refine ⟨?_, ?_, by decide⟩
  · intro c b hf hp
    simp [set_value_from_ble, decodeBle, hf, unpackUInt, set_value, hp,
      Except.map, bind, Except.bind, throw, throwThe, MonadExceptOf.throw,
      pure, Except.pure]
  · intro c bs v h
    simp [set_value_from_ble, h]

/-- C1, witness for the amended theorem's hypotheses. -/
theorem C1_witness :
    set_value_from_ble cReadOnly [7]
      = .error (.permissionError HapStatusCodes.CANT_WRITE_READ_ONLY, cReadOnly) :=
  C1_strict_pipeline.1 cReadOnly 7 (by decide) (by decide)

/-- C2: on a readable/writable unconstrained uint8 characteristic holding
`5`, `get_value_for_ble` returns the raw integer `5` — none of the unsigned
fixed-width formats are `struct`-packed on the encode side, although
`set_value_from_ble` unpacks all of them — so feeding the encode result back
into the decoder is a `TypeError`, not a round trip restoring `5`. -/
theorem C2_encode_gap :
    get_value_for_ble cUint8 = .ok (.int 5)
    ∧ ble_round_trip cUint8 = .error (.typeError, cUint8) := by decide

/-- C3, counterexample: with format uint8, no explicit value, no
valid_values, no minValue and maxValue=100, the constructed default is `100`,
not the in-range format default `0` the claim promises: `if not self.value`
treats the falsy default `0` as absent and replaces it by the bound. -/
theorem C3_counterexample :
    initialValue [.paired_read] Option.none Option.none .uint8
        Option.none (some (.int 100)) = .ok (.int 100)
    ∧ PyVal.int 100 ≠ PyVal.int 0 := by decide

/-- C6, counterexample: a successful `set_value` on a write-only
characteristic stores the written value; `value` is not `None` afterwards,
contradicting "absent at all times". -/
theorem C6_counterexample :
    set_value cWriteOnly (.int 5) = .ok { cWriteOnly with value := .int 5 }
    ∧ ({ cWriteOnly with value := .int 5 } : Characteristic).value ≠ PyVal.none := by
  decide

/-- C7: `check_convert_value` on the numeric-format characteristic `cUint8`
with the unparsable string `"abc"` propagates `decimal.InvalidOperation` —
`Decimal("abc")` does not raise `ValueError`, so the `except ValueError`
clause never fires — instead of failing with any `FormatError`. -/
theorem C7_uncaught_invalid_operation :
    check_convert_value (.str "abc") cUint8 = .error .invalidOperation
    ∧ (∀ z : ℤ, PyExn.invalidOperation ≠ PyExn.formatError z)
    ∧ (∀ s : String, PyExn.invalidOperation ≠ PyExn.formatErrorMsg s) := by
  refine ⟨by decide, ?_, ?_⟩ <;> intro x h <;> cases h

/-- Every `DEFAULT_FOR_TYPE` entry is falsy in Python (`False`, `0`, `0.0`,
`""`, `[]`, the empty mapping, or `None` for the blob formats). -/
theorem DEFAULT_FOR_TYPE_falsy (fmt : CharacteristicFormats) :
    pyTruthy (DEFAULT_FOR_TYPE fmt) = false := by
  cases fmt <;> rfl

/-- C3, amended: the precedence explicit initial value > first element of
`valid_values` > format default holds (first two conjuncts), but the bound
adjustment is not a clamp-only-when-out-of-range: each truthy (nonzero)
bound first replaces a falsy current value by the bound itself and then
applies `max`/`min` with it, and all format defaults are falsy — so a truthy
bound always replaces the default (conjuncts three to five: with only a
truthy minValue the initial value is minValue; with only a truthy maxValue
it is maxValue, even when the default was in range; with both truthy bounds
it is `min(minValue, maxValue)`); a falsy (zero) or absent bound leaves the
default unchanged. -/
theorem C3_default_precedence :
    (∀ (perms : List CharacteristicPermissions) (vv : Option (List PyVal))
        (fmt : CharacteristicFormats) (mn mx : Option PyVal) (v : PyVal),
      CharacteristicPermissions.paired_read ∈ perms →
      initialValue perms (some v) vv fmt mn mx = .ok v)
    ∧ (∀ (perms : List CharacteristicPermissions) (fmt : CharacteristicFormats)
        (mn mx : Option PyVal) (v : PyVal) (vs : List PyVal),
      CharacteristicPermissions.paired_read ∈ perms →
      initialValue perms Option.none (some (v :: vs)) fmt mn mx = .ok v)
    ∧ (∀ (perms : List CharacteristicPermissions) (fmt : CharacteristicFormats)
        (m : PyVal) (md : Dec),
      CharacteristicPermissions.paired_read ∈ perms →
      toDec m = some md →
      initialValue perms Option.none Option.none fmt (some m) Option.none
        = .ok (if pyTruthy m then m else DEFAULT_FOR_TYPE fmt))
    ∧ (∀ (perms : List CharacteristicPermissions) (fmt : CharacteristicFormats)
        (M : PyVal) (MD : Dec),
      CharacteristicPermissions.paired_read ∈ perms →
      toDec M = some MD →
      initialValue perms Option.none Option.none fmt Option.none (some M)
        = .ok (if pyTruthy M then M else DEFAULT_FOR_TYPE fmt))
    ∧ (∀ (perms : List CharacteristicPermissions) (fmt : CharacteristicFormats)
        (m M : PyVal) (md MD : Dec),
      CharacteristicPermissions.paired_read ∈ perms →
      toDec m = some md → toDec M = some MD →
      initialValue perms Option.none Option.none fmt (some m) (some M)
        = .ok (if pyTruthy m then
                 (if pyTruthy M then (if Dec.blt MD md then M else m) else m)
               else (if pyTruthy M then M else DEFAULT_FOR_TYPE fmt))) := by
  refine ⟨?_, ?_, ?_, ?_, ?_⟩
  · intro perms vv fmt mn mx v hr
    simp [initialValue, hr]
  · intro perms fmt mn mx v vs hr
    simp [initialValue, hr]
  · intro perms fmt m md hr hm
    by_cases htm : pyTruthy m
    · simp [initialValue, hr, htm, DEFAULT_FOR_TYPE_falsy, pyMax, hm,
        Dec.blt, Dec.align, bind, Except.bind, pure, Except.pure]
    · simp [initialValue, hr, htm, bind, Except.bind, pure, Except.pure]
  · intro perms fmt M MD hr hM
    by_cases htM : pyTruthy M
    · simp [initialValue, hr, htM, DEFAULT_FOR_TYPE_falsy, pyMin, hM,
        Dec.blt, Dec.align, bind, Except.bind, pure, Except.pure]
    · simp [initialValue, hr, htM, bind, Except.bind, pure, Except.pure]
  · intro perms fmt m M md MD hr hm hM
    by_cases htm : pyTruthy m
    · by_cases htM : pyTruthy M
      · simp [initialValue, hr, htm, htM, DEFAULT_FOR_TYPE_falsy, pyMax, pyMin,
          hm, hM, Dec.blt, Dec.align, bind, Except.bind, pure, Except.pure]
      · simp [initialValue, hr, htm, htM, DEFAULT_FOR_TYPE_falsy, pyMax, hm,
          Dec.blt, Dec.align, bind, Except.bind, pure, Except.pure]
    · by_cases htM : pyTruthy M
      · simp [initialValue, hr, htm, htM, DEFAULT_FOR_TYPE_falsy, pyMin, hM,
          Dec.blt, Dec.align, bind, Except.bind, pure, Except.pure]
      · simp [initialValue, hr, htm, htM, bind, Except.bind, pure, Except.pure]

/-- C3, witness: the amended characterisation applied at the
counterexample's configuration (truthy maxValue 100 over a uint8 default). -/
theorem C3_witness :
    initialValue [.paired_read] Option.none Option.none .uint8
        Option.none (some (.int 100))
      = .ok (if pyTruthy (.int 100) then (.int 100 : PyVal)
             else DEFAULT_FOR_TYPE .uint8) :=
  C3_default_precedence.2.2.2.1 [.paired_read] .uint8 (.int 100) (Dec.ofInt 100)
    (by decide) (by decide)

/-- C6, amended: without read permission the constructor always leaves
`value = None` (whatever else is configured, including an explicit initial
value), and `get_value` always refuses with a `CharacteristicPermissionError`
— but `set_value` stores a successfully written value even on a
characteristic without read permission (third conjunct: an unconstrained
integer-format write-only characteristic accepts the write and keeps it). -/
theorem C6_value_visibility :
    (∀ (perms : List CharacteristicPermissions) (ev : Option PyVal)
        (vv : Option (List PyVal)) (fmt : CharacteristicFormats)
        (mn mx : Option PyVal),
      CharacteristicPermissions.paired_read ∉ perms →
      initialValue perms ev vv fmt mn mx = .ok PyVal.none)
    ∧ (∀ c : Characteristic,
      CharacteristicPermissions.paired_read ∉ c.perms →
      get_value c = .error (.permissionError HapStatusCodes.CANT_READ_WRITE_ONLY))
    ∧ (∀ (c : Characteristic) (n : ℤ),
      CharacteristicPermissions.paired_write ∈ c.perms →
      c.format ∈ INTEGER_TYPES →
      c.minValue = Option.none → c.maxValue = Option.none →
      c.minStep = Option.none → c.valid_values = Option.none →
      c.valid_values_range = Option.none →
      set_value c (.int n) = .ok { c with value := .int n }) := by
  refine ⟨?_, ?_, ?_⟩
  · intro perms ev vv fmt mn mx h
    simp [initialValue, h]
  · intro c h
    simp [get_value, h]
  · intro c n hp hf h1 h2 h3 h4 h5
    simp only [INTEGER_TYPES, List.mem_cons, List.not_mem_nil, or_false] at hf
    rcases hf with hf | hf | hf | hf | hf <;>
      simp [set_value, hp, hf, convertForFormat, INTEGER_TYPES, NUMBER_TYPES,
        pyToInt, numericChecks, minCheck, maxCheck, stepCheck, validValuesCheck,
        validValuesRangeCheck, toDec, h1, h2, h3, h4, h5, Except.map,
        bind, Except.bind, pure, Except.pure, throw, throwThe, MonadExceptOf.throw]

/-- C6, witness: the write-only fixture stores a written `5`. -/
theorem C6_witness :
    set_value cWriteOnly (.int 5) = .ok { cWriteOnly with value := .int 5 } :=
  C6_value_visibility.2.2 cWriteOnly 5 (by decide) (by decide) (by decide)
    (by decide) (by decide) (by decide) (by decide)

/-- C8: validation fully precedes mutation in `set_value`.  The model threads
the characteristic state through the write and lets every raise site carry
the state as it stood there; whenever `set_value` fails — with a permission
violation, a format violation, or any uncaught exception — the state it
leaves behind is exactly the input state, because the single assignment to
`self.value` is the last statement of the function. -/
theorem C8_no_partial_write (c : Characteristic) (v : PyVal)
    (e : PyExn) (c' : Characteristic)
    (h : set_value c v = .error (e, c')) : c' = c := by
  simp only [set_value, bind, Except.bind, pure, Except.pure,
    throw, throwThe, MonadExceptOf.throw] at h
  repeat' split at h
  all_goals simp_all

/-- C8, witness: a write without permission fails and, by the theorem,
leaves the state exactly as it was. -/
theorem C8_witness :
    set_value cReadOnly (.int 5)
      = .error (.permissionError HapStatusCodes.CANT_WRITE_READ_ONLY, cReadOnly)
    ∧ cReadOnly = cReadOnly :=
  ⟨by decide,
   C8_no_partial_write cReadOnly (.int 5)
     (.permissionError HapStatusCodes.CANT_WRITE_READ_ONLY) cReadOnly (by decide)⟩

/-- Helper: the step clause of `numericChecks` rejects a non-multiple once
the range clauses pass. -/
theorem numericChecks_step_reject (c : Characteristic) (n : ℤ) (ms : PyVal)
    (sd tmp : Dec)
    (hmin : c.minValue = Option.none ∧ tmp = Dec.ofInt n ∨
      (∃ mv md, c.minValue = some mv ∧ toDec mv = some md ∧
        Dec.blt (Dec.ofInt n) md = false ∧ tmp = Dec.sub (Dec.ofInt n) md))
    (hmax : c.maxValue = Option.none ∨
      (∃ mv md, c.maxValue = some mv ∧ toDec mv = some md ∧
        Dec.blt md (Dec.ofInt n) = false))
    (hms : c.minStep = some ms) (hsd : toDec ms = some sd)
    (hsd0 : sd.mant ≠ 0) (hdvd : Dec.divisibleBy tmp sd = false) :
    numericChecks c (.int n) = .error (.formatError HapStatusCodes.INVALID_VALUE) := by
  have hminp : minCheck c (Dec.ofInt n) = .ok () := by
    rcases hmin with ⟨hmv, _⟩ | ⟨mv, md, hmv, hmd, hblt, _⟩
    · simp [minCheck, hmv]
    · simp [minCheck, hmv, hmd, hblt]
  have hmaxp : maxCheck c (Dec.ofInt n) = .ok () := by
    rcases hmax with hMv | ⟨Mv, MD, hMv, hMD, hMblt⟩
    · simp [maxCheck, hMv]
    · simp [maxCheck, hMv, hMD, hMblt]
  have hstep : stepCheck c (Dec.ofInt n)
      = .error (.formatError HapStatusCodes.INVALID_VALUE) := by
    rcases hmin with ⟨hmv, htmp⟩ | ⟨mv, md, hmv, hmd, hblt, htmp⟩ <;> subst htmp
    · simp [stepCheck, hmv, hms, hsd, hsd0, hdvd,
        bind, Except.bind, pure, Except.pure, throw, throwThe, MonadExceptOf.throw]
    · simp [stepCheck, hmv, hmd, hms, hsd, hsd0, hdvd,
        bind, Except.bind, pure, Except.pure, throw, throwThe, MonadExceptOf.throw]
  simp [numericChecks, toDec, hminp, hmaxp, hstep,
    bind, Except.bind, pure, Except.pure]

/-- Helper: a `numericChecks` failure surfaces from `set_value` unchanged
(for integer formats the conversion step is the identity on `int`). -/
theorem set_value_numeric_error (c : Characteristic) (n : ℤ) (e : PyExn)
    (hp : CharacteristicPermissions.paired_write ∈ c.perms)
    (hf : c.format ∈ INTEGER_TYPES)
    (h : numericChecks c (.int n) = .error e) :
    set_value c (.int n) = .error (e, c) := by
  simp only [INTEGER_TYPES, List.mem_cons, List.not_mem_nil, or_false] at hf
  rcases hf with hf | hf | hf | hf | hf <;>
    simp [set_value, hp, hf, convertForFormat, INTEGER_TYPES, NUMBER_TYPES,
      pyToInt, h, Except.map, bind, Except.bind, pure, Except.pure,
      throw, throwThe, MonadExceptOf.throw]

/-- C5: on an integer-format characteristic with a nonzero step constraint,
a write that passes the permission and range checks is rejected by
`set_value` with `FormatError(INVALID_VALUE)` whenever the exact decimal
offset difference `value - (minValue ?? 0)` is not an exact multiple of the
step (first conjunct); in particular with min=0, max=100, step=10 the write
of 55 fails and the write of 50 succeeds leaving the stored value 50. -/
theorem C5_strict_step_reject :
    (∀ (c : Characteristic) (n : ℤ) (ms : PyVal) (sd tmp : Dec),
      CharacteristicPermissions.paired_write ∈ c.perms →
      c.format ∈ INTEGER_TYPES →
      (c.minValue = Option.none ∧ tmp = Dec.ofInt n ∨
        (∃ mv md, c.minValue = some mv ∧ toDec mv = some md ∧
          Dec.blt (Dec.ofInt n) md = false ∧ tmp = Dec.sub (Dec.ofInt n) md)) →
      (c.maxValue = Option.none ∨
        (∃ mv md, c.maxValue = some mv ∧ toDec mv = some md ∧
          Dec.blt md (Dec.ofInt n) = false)) →
      c.minStep = some ms → toDec ms = some sd → sd.mant ≠ 0 →
      Dec.divisibleBy tmp sd = false →
      set_value c (.int n) = .error (.formatError HapStatusCodes.INVALID_VALUE, c))
    ∧ set_value cStep10 (.int 55)
        = .error (.formatError HapStatusCodes.INVALID_VALUE, cStep10)
    ∧ set_value cStep10 (.int 50) = .ok { cStep10 with value := .int 50 } := by
  refine ⟨?_, by decide, by decide⟩
  intro c n ms sd tmp hp hf hmin hmax hms hsd hsd0 hdvd
  exact set_value_numeric_error c n _ hp hf
    (numericChecks_step_reject c n ms sd tmp hmin hmax hms hsd hsd0 hdvd)

/-- C5, witness: the general rejection applied at the concrete fixture
(min=0, max=100, step=10, write 55). -/
theorem C5_witness :
    set_value cStep10 (.int 55)
      = .error (.formatError HapStatusCodes.INVALID_VALUE, cStep10) :=
  C5_strict_step_reject.1 cStep10 55 (.int 10) (Dec.ofInt 10)
    (Dec.sub (Dec.ofInt 55) (Dec.ofInt 0))
    (by decide) (by decide)
    (Or.inr ⟨.int 0, Dec.ofInt 0, by decide, by decide, by decide, rfl⟩)
    (Or.inr ⟨.int 100, Dec.ofInt 100, by decide, by decide, by decide⟩)
    (by decide) (by decide) (by decide) (by decide)

/-- Helper: when a nonzero step is configured, `snapToStep` computes exactly
`offset + round_half_up((value - offset) / step) * step` with every
arithmetic operation rounded to 6 significant digits half-up and
`offset = minValue ?? 0`. -/
theorem snapToStep_formula (c : Characteristic) (vd : Dec) (ms : PyVal)
    (sd o : Dec)
    (hms : c.minStep = some ms) (hsd : toDec ms = some sd) (hsd0 : sd.mant ≠ 0)
    (ho : (match c.minValue with
            | some mv => toDec mv
            | Option.none => some (Dec.ofInt 0)) = some o) :
    snapToStep c vd
      = .ok (Dec.roundSig 6 (Dec.add o (Dec.roundSig 6 (Dec.mul
          (Dec.ofInt (Dec.intHU (Dec.divRound6 (Dec.roundSig 6 (Dec.sub vd o)) sd)))
          sd)))) := by
  rcases hmv : c.minValue with _ | mv
  · rw [hmv] at ho
    simp only [Option.some.injEq] at ho
    subst ho
    simp [snapToStep, hms, hsd, hsd0, hmv,
      bind, Except.bind, pure, Except.pure, throw, throwThe, MonadExceptOf.throw]
  · rw [hmv] at ho
    have ho' : toDec mv = some o := ho
    simp [snapToStep, hms, hsd, hsd0, hmv, ho',
      bind, Except.bind, pure, Except.pure, throw, throwThe, MonadExceptOf.throw]

/-- C4: for a numeric characteristic with a nonzero step constraint, the
lenient pipeline snaps the (clamped) parsed value by computing
`offset + round_half_up((value - offset)/step) * step` with
`offset = minValue ?? 0`, in round-half-up decimal arithmetic at 6
significant digits (`Dec.roundSig 6` after each operation, `Dec.intHU` for
the integral rounding), and then casts: integer formats round the result
half-even to an int, the float format keeps it; in particular with min=0,
max=100, step=10, coercing 55 yields 60. -/
theorem C4_lenient_step_snap :
    (∀ (c : Characteristic) (val : PyVal) (vd clamped : Dec) (ms : PyVal)
        (sd o : Dec),
      c.format ∈ INTEGER_TYPES →
      decimalOf val = .ok vd →
      clampBounds c vd = .ok clamped →
      c.minStep = some ms → toDec ms = some sd → sd.mant ≠ 0 →
      (match c.minValue with
        | some mv => toDec mv
        | Option.none => some (Dec.ofInt 0)) = some o →
      check_convert_value val c
        = .ok (.int (Dec.intHE (Dec.roundSig 6 (Dec.add o (Dec.roundSig 6 (Dec.mul
            (Dec.ofInt (Dec.intHU (Dec.divRound6 (Dec.roundSig 6 (Dec.sub clamped o)) sd)))
            sd)))))))
    ∧ (∀ (c : Characteristic) (val : PyVal) (vd clamped : Dec) (ms : PyVal)
        (sd o : Dec),
      c.format = .float →
      decimalOf val = .ok vd →
      clampBounds c vd = .ok clamped →
      c.minStep = some ms → toDec ms = some sd → sd.mant ≠ 0 →
      (match c.minValue with
        | some mv => toDec mv
        | Option.none => some (Dec.ofInt 0)) = some o →
      check_convert_value val c
        = .ok (.float (Dec.roundSig 6 (Dec.add o (Dec.roundSig 6 (Dec.mul
            (Dec.ofInt (Dec.intHU (Dec.divRound6 (Dec.roundSig 6 (Dec.sub clamped o)) sd)))
            sd))))))
    ∧ check_convert_value (.int 55) cStep10 = .ok (.int 60) := by
  refine ⟨?_, ?_, by decide⟩
  · intro c val vd clamped ms sd o hf hval hclamp hms hsd hsd0 ho
    have hsnap := snapToStep_formula c clamped ms sd o hms hsd hsd0 ho
    simp only [INTEGER_TYPES, List.mem_cons, List.not_mem_nil, or_false] at hf
    rcases hf with hf | hf | hf | hf | hf <;>
      simp [check_convert_value, clampAndSnap, hf, hval, hclamp, hsnap,
        NUMBER_TYPES, INTEGER_TYPES, bind, Except.bind]
  · intro c val vd clamped ms sd o hf hval hclamp hms hsd hsd0 ho
    have hsnap := snapToStep_formula c clamped ms sd o hms hsd hsd0 ho
    simp [check_convert_value, clampAndSnap, hf, hval, hclamp, hsnap,
      NUMBER_TYPES, INTEGER_TYPES, bind, Except.bind]

/-- C4, witness: the integer-format conjunct applied at the fixture
(min=0, max=100, step=10) and value 55, with every hypothesis evaluated. -/
theorem C4_witness :
    check_convert_value (.int 55) cStep10
      = .ok (.int (Dec.intHE (Dec.roundSig 6 (Dec.add (Dec.ofInt 0)
          (Dec.roundSig 6 (Dec.mul
            (Dec.ofInt (Dec.intHU (Dec.divRound6
              (Dec.roundSig 6 (Dec.sub (Dec.ofInt 55) (Dec.ofInt 0)))
              (Dec.ofInt 10))))
            (Dec.ofInt 10))))))) :=
  C4_lenient_step_snap.1 cStep10 (.int 55) (Dec.ofInt 55) (Dec.ofInt 55)
    (.int 10) (Dec.ofInt 10) (Dec.ofInt 0)
    (by decide) (by decide) (by decide) (by decide) (by decide) (by decide) (by decide)

/-- C9: the lenient pipeline never rejects a parsed numeric value — whatever
combination of numeric bounds and nonzero step is configured, and whatever
`valid_values`/`valid_values_range` hold, `check_convert_value` succeeds
(first conjunct); a parsed value above a present `maxValue` with no step is
returned as exactly that bound (second conjunct — clamping, not rejection);
with max=100 the input 150 coerces to 100 (third conjunct); and the result
is completely independent of the `valid_values` and `valid_values_range`
fields (fourth conjunct), so no enum or range rejection is ever applied. -/
theorem C9_lenient_clamp_no_reject :
    (∀ (c : Characteristic) (val : PyVal) (vd : Dec),
      c.format ∈ NUMBER_TYPES →
      decimalOf val = .ok vd →
      (c.minValue = Option.none ∨ ∃ mv md, c.minValue = some mv ∧ toDec mv = some md) →
      (c.maxValue = Option.none ∨ ∃ mv md, c.maxValue = some mv ∧ toDec mv = some md) →
      (c.minStep = Option.none ∨
        ∃ ms sd, c.minStep = some ms ∧ toDec ms = some sd ∧ sd.mant ≠ 0) →
      ∃ w, check_convert_value val c = .ok w)
    ∧ (∀ (c : Characteristic) (val : PyVal) (vd : Dec) (M : PyVal) (MD : Dec),
      c.format ∈ INTEGER_TYPES →
      decimalOf val = .ok vd →
      c.minValue = Option.none → c.maxValue = some M → toDec M = some MD →
      c.minStep = Option.none →
      Dec.blt MD vd = true →
      check_convert_value val c = .ok (.int (Dec.intHE MD)))
    ∧ check_convert_value (.int 150) cMax100 = .ok (.int 100)
    ∧ (∀ (c : Characteristic) (val : PyVal) (vv : Option (List PyVal))
        (vvr : Option (PyVal × PyVal)),
      check_convert_value val
          { c with valid_values := vv, valid_values_range := vvr }
        = check_convert_value val c) := by
  refine ⟨?_, ?_, by decide, ?_⟩
  · intro c val vd hf hval hmin hmax hstep
    have hclamp : ∃ cl, clampBounds c vd = .ok cl := by
      rcases hmin with hmv | ⟨mv, md, hmv, hmd⟩ <;>
        rcases hmax with hMv | ⟨Mv, MD, hMv, hMD⟩
      · exact ⟨vd, by simp [clampBounds, hmv, hMv, bind, Except.bind, pure, Except.pure]⟩
      · exact ⟨if Dec.blt MD vd then MD else vd,
          by simp [clampBounds, hmv, hMv, hMD, bind, Except.bind, pure, Except.pure]⟩
      · exact ⟨if Dec.blt vd md then md else vd,
          by simp [clampBounds, hmv, hmd, hMv, bind, Except.bind, pure, Except.pure]⟩
      · exact ⟨if Dec.blt MD (if Dec.blt vd md then md else vd) then MD
            else (if Dec.blt vd md then md else vd),
          by simp [clampBounds, hmv, hmd, hMv, hMD, bind, Except.bind, pure, Except.pure]⟩
    obtain ⟨cl, hcl⟩ := hclamp
    have hsnap : ∃ out, snapToStep c cl = .ok out := by
      rcases hstep with hms | ⟨ms, sd, hms, hsd, hsd0⟩
      · exact ⟨cl, by simp [snapToStep, hms, bind, Except.bind, pure, Except.pure]⟩
      · rcases hmin with hmv | ⟨mv, md, hmv, hmd⟩
        · exact ⟨_, snapToStep_formula c cl ms sd (Dec.ofInt 0) hms hsd hsd0 (by rw [hmv])⟩
        · exact ⟨_, snapToStep_formula c cl ms sd md hms hsd hsd0 (by rw [hmv]; exact hmd)⟩
    obtain ⟨out, hout⟩ := hsnap
    simp only [NUMBER_TYPES, INTEGER_TYPES, List.mem_append, List.mem_cons,
      List.not_mem_nil, or_false, List.mem_singleton] at hf
    rcases hf with ((hf | hf | hf | hf | hf) | hf)
    case inl.inl => exact ⟨.int (Dec.intHE out),
      by simp [check_convert_value, clampAndSnap, hf, hval, hcl, hout,
        NUMBER_TYPES, INTEGER_TYPES, bind, Except.bind]⟩
    case inl.inr.inl => exact ⟨.int (Dec.intHE out),
      by simp [check_convert_value, clampAndSnap, hf, hval, hcl, hout,
        NUMBER_TYPES, INTEGER_TYPES, bind, Except.bind]⟩
    case inl.inr.inr.inl => exact ⟨.int (Dec.intHE out),
      by simp [check_convert_value, clampAndSnap, hf, hval, hcl, hout,
        NUMBER_TYPES, INTEGER_TYPES, bind, Except.bind]⟩
    case inl.inr.inr.inr.inl => exact ⟨.int (Dec.intHE out),
      by simp [check_convert_value, clampAndSnap, hf, hval, hcl, hout,
        NUMBER_TYPES, INTEGER_TYPES, bind, Except.bind]⟩
    case inl.inr.inr.inr.inr => exact ⟨.int (Dec.intHE out),
      by simp [check_convert_value, clampAndSnap, hf, hval, hcl, hout,
        NUMBER_TYPES, INTEGER_TYPES, bind, Except.bind]⟩
    case inr => exact ⟨.float out,
      by simp [check_convert_value, clampAndSnap, hf, hval, hcl, hout,
        NUMBER_TYPES, INTEGER_TYPES, bind, Except.bind]⟩
  · intro c val vd M MD hf hval hmv hMv hMD hms hblt
    have hcl : clampBounds c vd = .ok MD := by
      simp [clampBounds, hmv, hMv, hMD, hblt, bind, Except.bind, pure, Except.pure]
    have hout : snapToStep c MD = .ok MD := by
      simp [snapToStep, hms, bind, Except.bind, pure, Except.pure]
    simp only [INTEGER_TYPES, List.mem_cons, List.not_mem_nil, or_false] at hf
    rcases hf with hf | hf | hf | hf | hf <;>
      simp [check_convert_value, clampAndSnap, hf, hval, hcl, hout,
        NUMBER_TYPES, INTEGER_TYPES, bind, Except.bind]
  · intro c val vv vvr
    rfl

/-- C9, witness: clamping applied at the fixture with max=100 and input 150. -/
theorem C9_witness :
    check_convert_value (.int 150) cMax100 = .ok (.int (Dec.intHE (Dec.ofInt 100))) :=
  C9_lenient_clamp_no_reject.2.1 cMax100 (.int 150) (Dec.ofInt 150) (.int 100)
    (Dec.ofInt 100) (by decide) (by decide) (by decide) (by decide) (by decide)
    (by decide) (by decide)

/-- Helper: an optional-numeric descriptor entry never carries another key. -/
theorem notMem_optPvEntry (k key : String) (x : DVal) (o : Option PyVal)
    (hk : k ≠ key) : (k, x) ∉ optPvEntry key o := by
  cases o with
  | none => simp [optPvEntry]
  | some v => by_cases h : pyTruthy v <;> simp [optPvEntry, h, hk]

/-- Helper: a falsy optional-numeric attribute produces no entry at all. -/
theorem notMem_optPvEntry_falsy (k key : String) (x : DVal) (v : PyVal)
    (ht : pyTruthy v = false) : (k, x) ∉ optPvEntry key (some v) := by
  simp [optPvEntry, ht]

/-- Helper: an optional-string descriptor entry never carries another key. -/
theorem notMem_optStrEntry (k key : String) (x : DVal) (o : Option String)
    (hk : k ≠ key) : (k, x) ∉ optStrEntry key o := by
  cases o with
  | none => simp [optStrEntry]
  | some d => by_cases h : d = "" <;> simp [optStrEntry, h, hk]

/-- Helper: the `valid-values` entry never carries another key. -/
theorem notMem_validValuesEntry (k : String) (x : DVal) (o : Option (List PyVal))
    (hk : k ≠ "valid-values") : (k, x) ∉ validValuesEntry o := by
  cases o with
  | none => simp [validValuesEntry]
  | some vs => by_cases h : vs = [] <;> simp [validValuesEntry, h, hk]

/-- C10: the wire descriptor drops `minValue`, `maxValue` and `minStep`
entries whenever the configured constraint is falsy — in particular equal to
`0` or `0.0`, the falsy numeric values (last two conjuncts) — even though the
attribute is set, so a reader of the record cannot tell a zero bound or step
from an absent one; and whenever the characteristic has read permission the
record carries a `"value"` entry holding the stored value, including when
that stored value is `None`. -/
theorem C10_descriptor_truthiness :
    (∀ (c : Characteristic) (v : PyVal), c.minValue = some v → pyTruthy v = false →
      "minValue" ∉ (to_accessory_and_service_list c).map Prod.fst)
    ∧ (∀ (c : Characteristic) (v : PyVal), c.maxValue = some v → pyTruthy v = false →
      "maxValue" ∉ (to_accessory_and_service_list c).map Prod.fst)
    ∧ (∀ (c : Characteristic) (v : PyVal), c.minStep = some v → pyTruthy v = false →
      "minStep" ∉ (to_accessory_and_service_list c).map Prod.fst)
    ∧ (∀ c : Characteristic, CharacteristicPermissions.paired_read ∈ c.perms →
      ("value", DVal.pv c.value) ∈ to_accessory_and_service_list c)
    ∧ pyTruthy (PyVal.int 0) = false ∧ pyTruthy (PyVal.float ⟨0, 0⟩) = false := by
  refine ⟨?_, ?_, ?_, ?_, by decide, by decide⟩
  · intro c v h ht
    simp [to_accessory_and_service_list, h, ht, notMem_optPvEntry,
      notMem_optPvEntry_falsy, notMem_optStrEntry, notMem_validValuesEntry]
  · intro c v h ht
    simp [to_accessory_and_service_list, h, ht, notMem_optPvEntry,
      notMem_optPvEntry_falsy, notMem_optStrEntry, notMem_validValuesEntry]
  · intro c v h ht
    simp [to_accessory_and_service_list, h, ht, notMem_optPvEntry,
      notMem_optPvEntry_falsy, notMem_optStrEntry, notMem_validValuesEntry]
  · intro c hr
    simp [to_accessory_and_service_list, hr]

/-- C10, witness: the zero-constraint fixture omits `minStep` even though its
`minStep` attribute is the configured `0`. -/
theorem C10_witness :
    "minStep" ∉ (to_accessory_and_service_list cZeroBounds).map Prod.fst :=
  C10_descriptor_truthiness.2.2.1 cZeroBounds (.int 0) (by decide) (by decide)
